import Mathlib

/-!
Shallow embedding of src/app.py, a Flask service that extracts text from
an uploaded document, caches it per session, and relays it to a chat
completion provider.

Python strings are modelled as Lean `String` (a structure over `List Char`);
`str.strip()` is `pyStrip`, slicing `s[:n]` is `pyTake n s`,
`"\n".join` is `joinNl`.  The external parser libraries (PyPDF2, mammoth,
python-pptx, pandas) are modelled as an oracle `ParserOracle` giving, per
format, either the structured content the library would return or the
message of the exception it would raise.  The Azure OpenAI completion call
is the oracle field `World.provider`: either the list of streamed chunk
contents or the message of the exception raised by the call.  The
observable side effects of a request (saving the temp file, invoking
extraction, reading the JSON body, making the network call to the
provider, removing the temp file) are recorded in an effect list in the
order the code performs them.
-/

namespace App

/-- Python `str.strip()` on the underlying character list: drop whitespace
from the front, then from the back. -/
def stripChars (l : List Char) : List Char :=
  ((l.dropWhile Char.isWhitespace).reverse.dropWhile Char.isWhitespace).reverse

/-- Python `s.strip()`. -/
def pyStrip (s : String) : String := ⟨stripChars s.data⟩

/-- Python `s[:n]`. -/
def pyTake (n : Nat) (s : String) : String := ⟨s.data.take n⟩

/-- Python `s.lower()` (character-wise). -/
def lowerStr (s : String) : String := ⟨s.data.map Char.toLower⟩

/-- Python `s.split('.')` on the character list: splits at every dot,
always returning a non-empty list of segments. -/
def splitOnDot : List Char → List (List Char)
  | [] => [[]]
  | c :: cs =>
    if c = '.' then [] :: splitOnDot cs
    else
      match splitOnDot cs with
      | [] => [c] :: []
      | g :: gs => (c :: g) :: gs

/-- `file_name.split('.')[-1].lower()`  (src/app.py line 76). -/
def fileTypeOf (name : String) : String :=
  lowerStr ⟨(splitOnDot name.data).getLastD []⟩

/-- Python `"\n".join(l)`. -/
def joinNl (l : List String) : String := String.intercalate "\n" l

/-- `allowed_types = {"pdf", "docx", "pptx", "xlsx"}`  (src/app.py line 80). -/
def allowed_types : List String := ["pdf", "docx", "pptx", "xlsx"]

/-- The session store `document_cache` (src/app.py line 22), a Python dict
from session identifier to extracted text, modelled as an association list
in which `cacheSet` keeps at most one binding per key. -/
abbrev Cache := List (String × String)

/-- Dict lookup: `document_cache[k]`, and also the membership test
`k in document_cache` (present iff `some`). -/
def cacheGet (c : Cache) (k : String) : Option String :=
  (c.find? (fun p => p.1 == k)).map (fun p => p.2)

/-- Dict update `document_cache[k] = v`: overwrite-or-insert. -/
def cacheSet (c : Cache) (k v : String) : Cache :=
  (k, v) :: c.filter (fun p => !(p.1 == k))

/-- One role-tagged message of a completion request. -/
structure Msg where
  role : String
  content : String
deriving DecidableEq

/-- The request handed to `client.chat.completions.create`
(model plus the ordered message list). -/
structure CompletionRequest where
  model : String
  messages : List Msg
deriving DecidableEq

/-- Observable HTTP-level outcome of an endpoint call: either a JSON error
body with a status code, or a streamed `text/plain` response that was
produced from a completion request. -/
inductive EResp where
  | error (msg : String) (status : Nat)
  | stream (req : CompletionRequest) (fragments : List String)
deriving DecidableEq

/-- Side effects of a request, in execution order. -/
inductive Eff where
  | tempSave (path : String)
  | extractCall (fileType : String)
  | readBody
  | apiCall
  | tempRemove (path : String)
deriving DecidableEq

/-- Result of an endpoint call: response, resulting session store, effects. -/
structure EndpointResult where
  resp : EResp
  cache : Cache
  effects : List Eff
deriving DecidableEq

/-- Oracle for the third-party parsing libraries: per format, either the
structured content the library call would return, or the message of the
exception it would raise.
For PDF, the list of `page.extract_text()` results (possibly `None`);
for DOCX, `mammoth.extract_raw_text(f).value`;
for PPTX, the `shape.text` values of text-bearing shapes in slide/shape order;
for XLSX, the `df[sheet].to_csv(index=False)` rendering of every sheet. -/
structure ParserOracle where
  pdfPages : Except String (List (Option String))
  docxValue : Except String String
  pptxShapeTexts : Except String (List String)
  xlsxSheetCsvs : Except String (List String)

/-- The uploaded file: only its declared name matters to the control flow. -/
structure UploadedFile where
  filename : String
deriving DecidableEq

/-- Request to `POST /summarize`: the optional `file` part and the optional
`X-Session-ID` header. -/
structure SummarizeRequest where
  file : Option UploadedFile
  sessionHeader : Option String

/-- Parsed JSON body of `POST /ask`: `data.get("query")`. -/
structure AskBody where
  query : Option String

/-- Request to `POST /ask`: optional `X-Session-ID` header and the result
of `request.get_json()` (`none` models a missing/empty body). -/
structure AskRequest where
  sessionHeader : Option String
  body : Option AskBody

/-- The process environment and the external collaborators of one call. -/
structure World where
  parsers : ParserOracle
  api_key : Option String
  provider : Except String (List String)

/-- Python truthiness test `if not api_key` on the `os.getenv` result. -/
def keyMissing : Option String → Bool
  | none => true
  | some s => s == ""

/-- `tempfile.gettempdir()` modelled as a fixed directory. -/
def tempDir : String := "/tmp"

/-- `extract_text_from_file` (src/app.py lines 24-55): dispatch on the
`file_type` string, strip the joined raw text, and wrap any parser
exception as `ValueError("Failed to extract text from {file_type}: {e}")`.
The unsupported-type branch raises inside the `try`, so its message is
wrapped by the same handler. -/
def extract_text_from_file (o : ParserOracle) (file_type : String) :
    Except String String :=
  if file_type = "pdf" then
    match o.pdfPages with
    | Except.ok pages =>
        Except.ok (pyStrip (joinNl (pages.map (fun p => p.getD ""))))
    | Except.error e =>
        Except.error ("Failed to extract text from " ++ file_type ++ ": " ++ e)
  else if file_type = "docx" then
    match o.docxValue with
    | Except.ok raw => Except.ok (pyStrip raw)
    | Except.error e =>
        Except.error ("Failed to extract text from " ++ file_type ++ ": " ++ e)
  else if file_type = "pptx" then
    match o.pptxShapeTexts with
    | Except.ok texts => Except.ok (pyStrip (joinNl texts))
    | Except.error e =>
        Except.error ("Failed to extract text from " ++ file_type ++ ": " ++ e)
  else if file_type = "xlsx" then
    match o.xlsxSheetCsvs with
    | Except.ok csvs => Except.ok (pyStrip (joinNl csvs))
    | Except.error e =>
        Except.error ("Failed to extract text from " ++ file_type ++ ": " ++ e)
  else
    Except.error ("Failed to extract text from " ++ file_type ++ ": " ++
      "Unsupported file type: " ++ file_type)

/-- The two-message completion request built by `summarize`
(src/app.py lines 124-132). -/
def summarizeCompletionRequest (extracted_text : String) : CompletionRequest :=
  { model := "gpt-4o",
    messages :=
      [ { role := "system",
          content := "Summarize this document in 3-5 bullet points:" },
        { role := "user", content := pyTake 15000 extracted_text } ] }

/-- The three-message completion request built by `ask`
(src/app.py lines 207-216). -/
def askCompletionRequest (document_text query : String) : CompletionRequest :=
  { model := "gpt-4o",
    messages :=
      [ { role := "system",
          content :=
            "You are answering questions based on the following document:" },
        { role := "user", content := pyTake 15000 document_text },
        { role := "user", content := "Based on this document, " ++ query } ] }

/-- `summarize` (src/app.py lines 58-154).  Mirrors the control flow:
missing file part, empty filename, unsupported extension, temp-file save,
extraction (a raised `ValueError` reaches the outer handler and becomes a
500 JSON error), empty-after-strip check, store into `document_cache`,
credential check, then the streamed completion call.  The temp file is
removed only after the stream has been fully consumed without an
exception; a provider exception is yielded in-band as text. -/
def summarize (w : World) (document_cache : Cache) (req : SummarizeRequest) :
    EndpointResult :=
  match req.file with
  | none => ⟨EResp.error "No file uploaded" 400, document_cache, []⟩
  | some uploaded_file =>
    if uploaded_file.filename = "" then
      ⟨EResp.error "Invalid filename" 400, document_cache, []⟩
    else if fileTypeOf uploaded_file.filename ∉ allowed_types then
      ⟨EResp.error ("Unsupported file type: " ++ fileTypeOf uploaded_file.filename) 400,
        document_cache, []⟩
    else
      match extract_text_from_file w.parsers (fileTypeOf uploaded_file.filename) with
      | Except.error e =>
          ⟨EResp.error e 500, document_cache,
            [Eff.tempSave (tempDir ++ "/" ++ uploaded_file.filename),
             Eff.extractCall (fileTypeOf uploaded_file.filename)]⟩
      | Except.ok extracted_text =>
          if pyStrip extracted_text = "" then
            ⟨EResp.error "No text extracted from file" 400, document_cache,
              [Eff.tempSave (tempDir ++ "/" ++ uploaded_file.filename),
               Eff.extractCall (fileTypeOf uploaded_file.filename)]⟩
          else if keyMissing w.api_key then
            ⟨EResp.error "Server configuration error: Missing API key" 500,
              cacheSet document_cache (req.sessionHeader.getD "default") extracted_text,
              [Eff.tempSave (tempDir ++ "/" ++ uploaded_file.filename),
               Eff.extractCall (fileTypeOf uploaded_file.filename)]⟩
          else
            match w.provider with
            | Except.ok chunks =>
                ⟨EResp.stream (summarizeCompletionRequest extracted_text)
                    (chunks.filter (fun s => !(s == ""))),
                  cacheSet document_cache (req.sessionHeader.getD "default") extracted_text,
                  [Eff.tempSave (tempDir ++ "/" ++ uploaded_file.filename),
                   Eff.extractCall (fileTypeOf uploaded_file.filename),
                   Eff.apiCall,
                   Eff.tempRemove (tempDir ++ "/" ++ uploaded_file.filename)]⟩
            | Except.error e =>
                ⟨EResp.stream (summarizeCompletionRequest extracted_text)
                    ["Error generating summary: " ++ e],
                  cacheSet document_cache (req.sessionHeader.getD "default") extracted_text,
                  [Eff.tempSave (tempDir ++ "/" ++ uploaded_file.filename),
                   Eff.extractCall (fileTypeOf uploaded_file.filename),
                   Eff.apiCall]⟩

/-- `ask` (src/app.py lines 157-232).  Mirrors the control flow: session
lookup (absent entry rejected before the body is read), `request.get_json`,
query presence and non-emptiness, credential check, then the streamed
completion call over the stored document text. -/
def ask (w : World) (document_cache : Cache) (req : AskRequest) :
    EndpointResult :=
  match cacheGet document_cache (req.sessionHeader.getD "default") with
  | none =>
      ⟨EResp.error "No document found. Please upload a file first." 400,
        document_cache, []⟩
  | some document_text =>
    match req.body with
    | none =>
        ⟨EResp.error "Missing request data" 400, document_cache, [Eff.readBody]⟩
    | some data =>
      match data.query with
      | none =>
          ⟨EResp.error "Query cannot be empty" 400, document_cache, [Eff.readBody]⟩
      | some query =>
        if query = "" ∨ pyStrip query = "" then
          ⟨EResp.error "Query cannot be empty" 400, document_cache, [Eff.readBody]⟩
        else if keyMissing w.api_key then
          ⟨EResp.error "Server configuration error: Missing API key" 500,
            document_cache, [Eff.readBody]⟩
        else
          match w.provider with
          | Except.ok chunks =>
              ⟨EResp.stream (askCompletionRequest document_text query)
                  (chunks.filter (fun s => !(s == ""))),
                document_cache, [Eff.readBody, Eff.apiCall]⟩
          | Except.error e =>
              ⟨EResp.stream (askCompletionRequest document_text query)
                  ["Error answering question: " ++ e],
                document_cache, [Eff.readBody, Eff.apiCall]⟩

/-! ### Concrete fixtures used by witnesses and counterexamples -/

/-- Parser oracle on which every format parses successfully. -/
def O_ok : ParserOracle :=
  { pdfPages := Except.ok [some "hello", none],
    docxValue := Except.ok "doc",
    pptxShapeTexts := Except.ok ["a"],
    xlsxSheetCsvs := Except.ok ["c"] }

/-- Parser oracle whose PDF parser raises with message "bad". -/
def O_bad : ParserOracle :=
  { pdfPages := Except.error "bad",
    docxValue := Except.ok "doc",
    pptxShapeTexts := Except.ok ["a"],
    xlsxSheetCsvs := Except.ok ["c"] }

/-- Fully working environment: key present, provider streams two fragments. -/
def W_ok : World :=
  { parsers := O_ok, api_key := some "k",
    provider := Except.ok ["frag1", "", "frag2"] }

/-- Environment whose PDF parse raises; key present, provider fine. -/
def W_bad : World :=
  { parsers := O_bad, api_key := some "k", provider := Except.ok ["x"] }

/-- Environment in which the completion call raises. -/
def W_provErr : World :=
  { parsers := O_ok, api_key := some "k", provider := Except.error "boom" }

/-- Environment with the provider credential absent. -/
def W_nokey : World :=
  { parsers := O_ok, api_key := none, provider := Except.ok ["x"] }

/-- A summarize request uploading `a.pdf` under session `s1`. -/
def sqPdf : SummarizeRequest := { file := some ⟨"a.pdf"⟩, sessionHeader := some "s1" }

/-- An ask request for a fresh session with a non-empty query. -/
def aqFresh : AskRequest := { sessionHeader := some "fresh", body := some ⟨some "hi"⟩ }

/-! ### Helper lemmas -/

theorem string_data_append (s t : String) : (s ++ t).data = s.data ++ t.data := rfl

/-- The empty-extraction message is never the unsupported-type message. -/
theorem no_text_msg_ne_unsupported (x : String) :
    ¬ ("No text extracted from file" = "Unsupported file type: " ++ x) := by
  intro h
  have h2 : ("No text extracted from file").data =
      ("Unsupported file type: ").data ++ x.data := by
    have := congrArg String.data h
    rwa [string_data_append] at this
  have hN : ("No text extracted from file").data.head? = some 'N' := rfl
  have hU : (("Unsupported file type: ").data ++ x.data).head? = some 'U' := rfl
  rw [h2, hU] at hN
  exact absurd hN (by decide)

theorem cacheGet_cacheSet_self (c : Cache) (k v : String) :
    cacheGet (cacheSet c k v) k = some v := by
  simp [cacheGet, cacheSet, List.find?]

theorem mem_cacheSet (c : Cache) (k v : String) (p : String × String)
    (hp : p ∈ cacheSet c k v) : p = (k, v) ∨ p ∈ c := by
  rcases List.mem_cons.1 hp with h | h
  · exact Or.inl h
  · exact Or.inr (List.mem_of_mem_filter h)

theorem splitOnDot_no_dot (l : List Char) (h : '.' ∉ l) : splitOnDot l = [l] := by
  induction l with
  | nil => rfl
  | cons c cs ih =>
    have hc : ¬ c = '.' := by
      intro e
      exact h (e ▸ List.mem_cons_self c cs)
    have hcs : '.' ∉ cs := fun hm => h (List.mem_cons_of_mem c hm)
    simp only [splitOnDot, if_neg hc, ih hcs]

/-- A dotless file name is its own "extension": the derived type is the
whole name, lower-cased. -/
theorem fileTypeOf_no_dot (name : String) (h : '.' ∉ name.data) :
    fileTypeOf name = lowerStr name := by
  unfold fileTypeOf
  rw [splitOnDot_no_dot name.data h]
  rfl

theorem pyTake_of_le (v : String) (h : v.data.length ≤ 15000) :
    pyTake 15000 v = v := by
  unfold pyTake
  rw [List.take_of_length_le h]

theorem pyTake_data (v : String) : (pyTake 15000 v).data = v.data.take 15000 := rfl

theorem pyTake_long (v : String) (h : 15000 < v.data.length) :
    (pyTake 15000 v).data.length = 15000 ∧
      ∃ rest, v.data = (pyTake 15000 v).data ++ rest := by
  constructor
  · rw [pyTake_data, List.length_take]
    exact Nat.min_eq_left (Nat.le_of_lt h)
  · exact ⟨v.data.drop 15000, (List.take_append_drop 15000 v.data).symm⟩

/-! ### Shape lemmas for the two endpoints -/

theorem summarize_unsupported_shape (w : World) (c : Cache) (sq : SummarizeRequest)
    (f : UploadedFile) (hf : sq.file = some f) (hn : ¬ f.filename = "")
    (hbad : fileTypeOf f.filename ∉ allowed_types) :
    summarize w c sq =
      ⟨EResp.error ("Unsupported file type: " ++ fileTypeOf f.filename) 400, c, []⟩ := by
  obtain ⟨file, hdr⟩ := sq
  have hf2 : file = some f := hf
  subst hf2
  simp only [summarize]
  rw [if_neg hn, if_pos hbad]

theorem summarize_extract_error_shape (w : World) (c : Cache) (sq : SummarizeRequest)
    (f : UploadedFile) (m : String)
    (hf : sq.file = some f) (hn : ¬ f.filename = "")
    (hft : fileTypeOf f.filename ∈ allowed_types)
    (he : extract_text_from_file w.parsers (fileTypeOf f.filename) = Except.error m) :
    summarize w c sq =
      ⟨EResp.error m 500, c,
        [Eff.tempSave (tempDir ++ "/" ++ f.filename),
         Eff.extractCall (fileTypeOf f.filename)]⟩ := by
  obtain ⟨file, hdr⟩ := sq
  have hf2 : file = some f := hf
  subst hf2
  simp only [summarize]
  rw [if_neg hn, if_neg (not_not_intro hft)]
  simp only [he]

theorem summarize_empty_shape (w : World) (c : Cache) (sq : SummarizeRequest)
    (f : UploadedFile) (t : String)
    (hf : sq.file = some f) (hn : ¬ f.filename = "")
    (hft : fileTypeOf f.filename ∈ allowed_types)
    (he : extract_text_from_file w.parsers (fileTypeOf f.filename) = Except.ok t)
    (hemp : pyStrip t = "") :
    summarize w c sq =
      ⟨EResp.error "No text extracted from file" 400, c,
        [Eff.tempSave (tempDir ++ "/" ++ f.filename),
         Eff.extractCall (fileTypeOf f.filename)]⟩ := by
  obtain ⟨file, hdr⟩ := sq
  have hf2 : file = some f := hf
  subst hf2
  simp only [summarize]
  rw [if_neg hn, if_neg (not_not_intro hft)]
  simp only [he, if_pos hemp]

theorem summarize_nokey_shape (w : World) (c : Cache) (sq : SummarizeRequest)
    (f : UploadedFile) (t : String)
    (hf : sq.file = some f) (hn : ¬ f.filename = "")
    (hft : fileTypeOf f.filename ∈ allowed_types)
    (he : extract_text_from_file w.parsers (fileTypeOf f.filename) = Except.ok t)
    (hne : ¬ pyStrip t = "") (hk : keyMissing w.api_key = true) :
    summarize w c sq =
      ⟨EResp.error "Server configuration error: Missing API key" 500,
        cacheSet c (sq.sessionHeader.getD "default") t,
        [Eff.tempSave (tempDir ++ "/" ++ f.filename),
         Eff.extractCall (fileTypeOf f.filename)]⟩ := by
  obtain ⟨file, hdr⟩ := sq
  have hf2 : file = some f := hf
  subst hf2
  simp only [summarize]
  rw [if_neg hn, if_neg (not_not_intro hft)]
  simp only [he, if_neg hne, hk, if_true]

theorem summarize_ok_shape (w : World) (c : Cache) (sq : SummarizeRequest)
    (f : UploadedFile) (t : String)
    (hf : sq.file = some f) (hn : ¬ f.filename = "")
    (hft : fileTypeOf f.filename ∈ allowed_types)
    (he : extract_text_from_file w.parsers (fileTypeOf f.filename) = Except.ok t)
    (hne : ¬ pyStrip t = "") (hk : keyMissing w.api_key = false) :
    (summarize w c sq).cache = cacheSet c (sq.sessionHeader.getD "default") t ∧
    (∃ frags, (summarize w c sq).resp =
        EResp.stream (summarizeCompletionRequest t) frags) ∧
    ((summarize w c sq).effects =
        [Eff.tempSave (tempDir ++ "/" ++ f.filename),
         Eff.extractCall (fileTypeOf f.filename), Eff.apiCall,
         Eff.tempRemove (tempDir ++ "/" ++ f.filename)] ∨
      (summarize w c sq).effects =
        [Eff.tempSave (tempDir ++ "/" ++ f.filename),
         Eff.extractCall (fileTypeOf f.filename), Eff.apiCall]) := by
  obtain ⟨file, hdr⟩ := sq
  have hf2 : file = some f := hf
  subst hf2
  simp only [summarize]
  rw [if_neg hn, if_neg (not_not_intro hft)]
  simp only [he, if_neg hne, hk, Bool.false_eq_true, if_false]
  rcases hprov : w.provider with e | chunks
  · simp only [hprov]
    exact ⟨by trivial, ⟨_, by rfl⟩, Or.inr (by trivial)⟩
  · simp only [hprov]
    exact ⟨by trivial, ⟨_, by rfl⟩, Or.inl (by trivial)⟩

theorem ask_cache_const (w : World) (c : Cache) (req : AskRequest) :
    (ask w c req).cache = c := by
  rcases hg : cacheGet c (req.sessionHeader.getD "default") with _ | u
  · simp only [ask, hg]
  rcases hb : req.body with _ | data
  · simp only [ask, hg, hb]
  rcases hq2 : data.query with _ | q
  · simp only [ask, hg, hb, hq2]
  by_cases hq : q = "" ∨ pyStrip q = ""
  · simp only [ask, hg, hb, hq2, if_pos hq]
  by_cases hk : keyMissing w.api_key
  · simp only [ask, hg, hb, hq2, if_neg hq, hk, if_true]
  rcases hprov : w.provider with e | chunks
  · simp only [ask, hg, hb, hq2, if_neg hq, hk, Bool.false_eq_true, if_false, hprov]
  · simp only [ask, hg, hb, hq2, if_neg hq, hk, Bool.false_eq_true, if_false, hprov]

theorem ask_nodoc_shape (w : World) (c : Cache) (req : AskRequest)
    (hdoc : cacheGet c (req.sessionHeader.getD "default") = none) :
    ask w c req =
      ⟨EResp.error "No document found. Please upload a file first." 400, c, []⟩ := by
  simp only [ask]
  simp only [hdoc]

theorem ask_nokey_shape (w : World) (c : Cache) (hdr : Option String) (u q : String)
    (hdoc : cacheGet c (hdr.getD "default") = some u)
    (hq : ¬ (q = "" ∨ pyStrip q = "")) (hk : keyMissing w.api_key = true) :
    ask w c ⟨hdr, some ⟨some q⟩⟩ =
      ⟨EResp.error "Server configuration error: Missing API key" 500, c,
        [Eff.readBody]⟩ := by
  simp only [ask]
  simp only [hdoc, if_neg hq, hk, if_true]

theorem ask_ok_shape (w : World) (c : Cache) (hdr : Option String) (u q : String)
    (hdoc : cacheGet c (hdr.getD "default") = some u)
    (hq : ¬ (q = "" ∨ pyStrip q = "")) (hk : keyMissing w.api_key = false) :
    ∃ frags, ask w c ⟨hdr, some ⟨some q⟩⟩ =
      ⟨EResp.stream (askCompletionRequest u q) frags, c,
        [Eff.readBody, Eff.apiCall]⟩ := by
  simp only [ask]
  simp only [hdoc, if_neg hq, hk, Bool.false_eq_true, if_false]
  rcases hprov : w.provider with e | chunks
  · simp only [hprov]
    exact ⟨_, rfl⟩
  · simp only [hprov]
    exact ⟨_, rfl⟩

/-- The session store after `summarize` is either unchanged or got exactly
one overwrite-or-insert with a value that is non-empty after stripping. -/
theorem summarize_cache_cases (w : World) (c : Cache) (sq : SummarizeRequest) :
    (summarize w c sq).cache = c ∨
      ∃ sid t, ¬ pyStrip t = "" ∧ (summarize w c sq).cache = cacheSet c sid t := by
  obtain ⟨file, hdr⟩ := sq
  rcases file with _ | f
  · exact Or.inl rfl
  by_cases hn : f.filename = ""
  · left
    simp only [summarize, if_pos hn]
  by_cases hbad : fileTypeOf f.filename ∉ allowed_types
  · left
    simp only [summarize, if_neg hn, if_pos hbad]
  rcases he : extract_text_from_file w.parsers (fileTypeOf f.filename) with m | t
  · left
    simp only [summarize, if_neg hn, if_neg hbad, he]
  by_cases hne : pyStrip t = ""
  · left
    simp only [summarize, if_neg hn, if_neg hbad, he, if_pos hne]
  right
  refine ⟨hdr.getD "default", t, hne, ?_⟩
  by_cases hk : keyMissing w.api_key
  · simp only [summarize, if_neg hn, if_neg hbad, he, if_neg hne, hk, if_true]
  rcases hprov : w.provider with e | chunks
  · simp only [summarize, if_neg hn, if_neg hbad, he, if_neg hne, hk, Bool.false_eq_true, if_false, hprov]
  · simp only [summarize, if_neg hn, if_neg hbad, he, if_neg hne, hk, Bool.false_eq_true, if_false, hprov]

/-- Any upload with a supported derived type reaches the matching
extraction branch, and its response is never the unsupported-type
rejection. -/
theorem summarize_dispatch (w : World) (c : Cache) (hdr : Option String)
    (f : UploadedFile) (hn : ¬ f.filename = "")
    (hft : fileTypeOf f.filename ∈ allowed_types) :
    Eff.extractCall (fileTypeOf f.filename) ∈
      (summarize w c ⟨some f, hdr⟩).effects ∧
    ∀ x, (summarize w c ⟨some f, hdr⟩).resp ≠
      EResp.error ("Unsupported file type: " ++ x) 400 := by
  rcases he : extract_text_from_file w.parsers (fileTypeOf f.filename) with m | t
  · rw [summarize_extract_error_shape w c ⟨some f, hdr⟩ f m rfl hn hft he]
    refine ⟨by simp, fun x hcon => ?_⟩
    injection hcon with h1 h2
    exact absurd h2 (by decide)
  · by_cases hne : pyStrip t = ""
    · rw [summarize_empty_shape w c ⟨some f, hdr⟩ f t rfl hn hft he hne]
      refine ⟨by simp, fun x hcon => ?_⟩
      injection hcon with h1 h2
      exact no_text_msg_ne_unsupported x h1
    · by_cases hk : keyMissing w.api_key
      · rw [summarize_nokey_shape w c ⟨some f, hdr⟩ f t rfl hn hft he hne hk]
        refine ⟨by simp, fun x hcon => ?_⟩
        injection hcon with h1 h2
        exact absurd h2 (by decide)
      · obtain ⟨hcache, ⟨frags, hresp⟩, heff⟩ :=
          summarize_ok_shape w c ⟨some f, hdr⟩ f t rfl hn hft he hne
            (by simpa using hk)
        constructor
        · rcases heff with h | h <;> rw [h] <;> simp
        · intro x hcon
          rw [hresp] at hcon
          exact EResp.noConfusion hcon

/-! ### Claims -/

/-- Claim C6: an upload whose file name has a (case-insensitively)
unsupported extension is rejected by `summarize` with a 400 whose message
carries the lower-cased extension, with no temp-file save, no extraction
call, and no store mutation. -/
theorem claim6_unsupported_rejected_early (w : World) (c : Cache)
    (sq : SummarizeRequest) (f : UploadedFile)
    (hf : sq.file = some f) (hn : ¬ f.filename = "")
    (_hdot : '.' ∈ f.filename.data)
    (hbad : fileTypeOf f.filename ∉ allowed_types) :
    (summarize w c sq).resp =
      EResp.error ("Unsupported file type: " ++ fileTypeOf f.filename) 400 ∧
    (summarize w c sq).effects = [] ∧
    (summarize w c sq).cache = c := by
  rw [summarize_unsupported_shape w c sq f hf hn hbad]
  exact ⟨rfl, rfl, rfl⟩

/-- Claim C6 witness: uploading `report.TXT` is rejected with a 400
mentioning `txt`, before any temp save or extraction. -/
theorem claim6_witness :
    ((⟨some ⟨"report.TXT"⟩, none⟩ : SummarizeRequest).file = some ⟨"report.TXT"⟩) ∧
    (¬ (⟨"report.TXT"⟩ : UploadedFile).filename = "") ∧
    ('.' ∈ (⟨"report.TXT"⟩ : UploadedFile).filename.data) ∧
    (fileTypeOf (⟨"report.TXT"⟩ : UploadedFile).filename ∉ allowed_types) ∧
    ((summarize W_ok [] ⟨some ⟨"report.TXT"⟩, none⟩).resp =
        EResp.error ("Unsupported file type: " ++
          fileTypeOf (⟨"report.TXT"⟩ : UploadedFile).filename) 400 ∧
      (summarize W_ok [] ⟨some ⟨"report.TXT"⟩, none⟩).effects = [] ∧
      (summarize W_ok [] ⟨some ⟨"report.TXT"⟩, none⟩).cache = []) :=
  ⟨rfl, by decide, by decide, by decide,
    claim6_unsupported_rejected_early W_ok [] ⟨some ⟨"report.TXT"⟩, none⟩
      ⟨"report.TXT"⟩ rfl (by decide) (by decide) (by decide)⟩

/-- Claim C7: an `ask` whose session identifier (the header, defaulting to
"default") has no entry in the store is rejected with the 400
NoDocumentError message, before the body is read and before any network
call. -/
theorem claim7_no_document_rejected_early (w : World) (c : Cache)
    (areq : AskRequest)
    (hdoc : cacheGet c (areq.sessionHeader.getD "default") = none) :
    (ask w c areq).resp =
      EResp.error "No document found. Please upload a file first." 400 ∧
    (ask w c areq).effects = [] ∧
    Eff.readBody ∉ (ask w c areq).effects ∧
    Eff.apiCall ∉ (ask w c areq).effects := by
  rw [ask_nodoc_shape w c areq hdoc]
  exact ⟨rfl, rfl, by simp, by simp⟩

/-- Claim C7 witness: asking on a fresh session with an empty store is
rejected with the NoDocumentError message and no effects. -/
theorem claim7_witness :
    (cacheGet [] (aqFresh.sessionHeader.getD "default") = none) ∧
    ((ask W_ok [] aqFresh).resp =
        EResp.error "No document found. Please upload a file first." 400 ∧
      (ask W_ok [] aqFresh).effects = [] ∧
      Eff.readBody ∉ (ask W_ok [] aqFresh).effects ∧
      Eff.apiCall ∉ (ask W_ok [] aqFresh).effects) :=
  ⟨rfl, claim7_no_document_rejected_early W_ok [] aqFresh rfl⟩

/-- Claim C9: when extraction succeeds but the credential is absent,
`summarize` still writes the extracted text into the session store before
returning the 500 configuration error. -/
theorem claim9_store_written_despite_missing_key (w : World) (c : Cache)
    (sq : SummarizeRequest) (f : UploadedFile) (t : String)
    (hf : sq.file = some f) (hn : ¬ f.filename = "")
    (hft : fileTypeOf f.filename ∈ allowed_types)
    (he : extract_text_from_file w.parsers (fileTypeOf f.filename) = Except.ok t)
    (hne : ¬ pyStrip t = "") (hk : keyMissing w.api_key = true) :
    (summarize w c sq).resp =
      EResp.error "Server configuration error: Missing API key" 500 ∧
    cacheGet (summarize w c sq).cache (sq.sessionHeader.getD "default") =
      some t := by
  rw [summarize_nokey_shape w c sq f t hf hn hft he hne hk]
  exact ⟨rfl, cacheGet_cacheSet_self c _ t⟩

/-- Claim C9 witness: uploading `a.pdf` with no credential stores the
extracted text for session `s1` even though the call returns the 500
configuration error. -/
theorem claim9_witness :
    (sqPdf.file = some ⟨"a.pdf"⟩) ∧
    (¬ (⟨"a.pdf"⟩ : UploadedFile).filename = "") ∧
    (fileTypeOf (⟨"a.pdf"⟩ : UploadedFile).filename ∈ allowed_types) ∧
    (extract_text_from_file W_nokey.parsers
        (fileTypeOf (⟨"a.pdf"⟩ : UploadedFile).filename) = Except.ok "hello") ∧
    (¬ pyStrip "hello" = "") ∧
    (keyMissing W_nokey.api_key = true) ∧
    ((summarize W_nokey [] sqPdf).resp =
        EResp.error "Server configuration error: Missing API key" 500 ∧
      cacheGet (summarize W_nokey [] sqPdf).cache
          (sqPdf.sessionHeader.getD "default") = some "hello") :=
  ⟨rfl, by decide, by decide, rfl, by decide, rfl,
    claim9_store_written_despite_missing_key W_nokey [] sqPdf ⟨"a.pdf"⟩ "hello"
      rfl (by decide) (by decide) rfl (by decide) rfl⟩

/-- Claim C10: a dotless file name yields the entire lower-cased name as
the derived type, so a file named exactly `pdf`, `docx`, `pptx` or `xlsx`
is accepted and dispatched to the matching extractor rather than rejected
as unsupported. -/
theorem claim10_dotless_name_is_type (w : World) (c : Cache)
    (hdr : Option String) :
    (∀ name : String, '.' ∉ name.data → fileTypeOf name = lowerStr name) ∧
    (∀ name, name ∈ allowed_types →
      Eff.extractCall name ∈ (summarize w c ⟨some ⟨name⟩, hdr⟩).effects ∧
      ∀ x, (summarize w c ⟨some ⟨name⟩, hdr⟩).resp ≠
        EResp.error ("Unsupported file type: " ++ x) 400) := by
  refine ⟨fileTypeOf_no_dot, ?_⟩
  intro name hmem
  have hmem2 : name = "pdf" ∨ name = "docx" ∨ name = "pptx" ∨ name = "xlsx" := by
    simpa only [allowed_types, List.mem_cons, List.not_mem_nil, or_false] using hmem
  have hrw : fileTypeOf name = name := by
    rcases hmem2 with h | h | h | h <;> subst h <;> decide
  have hn : ¬ name = "" := by
    rcases hmem2 with h | h | h | h <;> subst h <;> decide
  have h := summarize_dispatch w c hdr ⟨name⟩ hn (by rw [hrw]; exact hmem)
  rw [hrw] at h
  exact h

/-- Claim C10 witness: `Makefile` derives type `makefile`; a file named
exactly `pdf` reaches the PDF extraction branch and is not rejected as
unsupported. -/
theorem claim10_witness :
    ('.' ∉ ("Makefile" : String).data) ∧
    (fileTypeOf "Makefile" = lowerStr "Makefile") ∧
    ("pdf" ∈ allowed_types) ∧
    (Eff.extractCall "pdf" ∈ (summarize W_ok [] ⟨some ⟨"pdf"⟩, some "s1"⟩).effects) ∧
    ((summarize W_ok [] ⟨some ⟨"pdf"⟩, some "s1"⟩).resp ≠
      EResp.error ("Unsupported file type: " ++ "txt") 400) :=
  ⟨by decide,
    (claim10_dotless_name_is_type W_ok [] (some "s1")).1 "Makefile" (by decide),
    by decide,
    ((claim10_dotless_name_is_type W_ok [] (some "s1")).2 "pdf" (by decide)).1,
    ((claim10_dotless_name_is_type W_ok [] (some "s1")).2 "pdf" (by decide)).2 "txt"⟩

/-- Claim C4: the session store never holds a value that is empty after
stripping.  Assuming the invariant for the incoming store, `summarize`
preserves it (it is the only writer; `ask` never changes the store), and
an extraction result that is empty after stripping is rejected with the
400 "No text extracted from file" response without writing anything. -/
theorem claim4_cache_values_never_empty (w : World) (c : Cache)
    (sq : SummarizeRequest)
    (hc : ∀ p ∈ c, ¬ pyStrip p.2 = "") :
    (∀ p ∈ (summarize w c sq).cache, ¬ pyStrip p.2 = "") ∧
    (∀ areq : AskRequest, (ask w c areq).cache = c) ∧
    (∀ f t, sq.file = some f → ¬ f.filename = "" →
      fileTypeOf f.filename ∈ allowed_types →
      extract_text_from_file w.parsers (fileTypeOf f.filename) = Except.ok t →
      pyStrip t = "" →
      (summarize w c sq).resp = EResp.error "No text extracted from file" 400 ∧
        (summarize w c sq).cache = c) := by
  refine ⟨?_, fun areq => ask_cache_const w c areq, ?_⟩
  · intro p hp
    rcases summarize_cache_cases w c sq with hcase | ⟨sid, t, hne, hcase⟩
    · rw [hcase] at hp
      exact hc p hp
    · rw [hcase] at hp
      rcases mem_cacheSet c sid t p hp with h | h
      · rw [h]
        exact hne
      · exact hc p h
  · intro f t hf hn hft he hemp
    rw [summarize_empty_shape w c sq f t hf hn hft he hemp]
    exact ⟨rfl, rfl⟩

/-- Claim C4 witness: with an empty store, uploading `a.pdf` preserves the
invariant, `ask` leaves the store unchanged, and an empty extraction would
be rejected without writing. -/
theorem claim4_witness :
    (∀ p ∈ ([] : Cache), ¬ pyStrip p.2 = "") ∧
    ((∀ p ∈ (summarize W_ok [] sqPdf).cache, ¬ pyStrip p.2 = "") ∧
      (∀ areq : AskRequest, (ask W_ok [] areq).cache = []) ∧
      (∀ f t, sqPdf.file = some f → ¬ f.filename = "" →
        fileTypeOf f.filename ∈ allowed_types →
        extract_text_from_file W_ok.parsers (fileTypeOf f.filename) =
          Except.ok t →
        pyStrip t = "" →
        (summarize W_ok [] sqPdf).resp =
            EResp.error "No text extracted from file" 400 ∧
          (summarize W_ok [] sqPdf).cache = [])) :=
  ⟨by simp, claim4_cache_values_never_empty W_ok [] sqPdf (by simp)⟩

/-- Claim C1: after a `summarize` call whose resulting store maps session
`s` to extracted text `t`, an `ask` with the same session identifier and a
non-empty query is never rejected with the NoDocumentError message, and
when the credential is present the completion request it builds carries,
as its second message, exactly the first 15,000 characters of `t`. -/
theorem claim1_ask_sees_summarized_text (w w2 : World) (c : Cache)
    (sq : SummarizeRequest) (s t q : String)
    (hstore : cacheGet (summarize w c sq).cache s = some t)
    (hq : ¬ (q = "" ∨ pyStrip q = "")) :
    (∀ st, (ask w2 (summarize w c sq).cache ⟨some s, some ⟨some q⟩⟩).resp ≠
        EResp.error "No document found. Please upload a file first." st) ∧
    (keyMissing w2.api_key = false →
      ∃ req frags,
        (ask w2 (summarize w c sq).cache ⟨some s, some ⟨some q⟩⟩).resp =
          EResp.stream req frags ∧
        req.messages[1]? = some ⟨"user", pyTake 15000 t⟩) := by
  have hdoc : cacheGet (summarize w c sq).cache ((some s).getD "default") =
      some t := hstore
  constructor
  · intro st
    by_cases hk : keyMissing w2.api_key
    · rw [ask_nokey_shape w2 _ (some s) t q hdoc hq hk]
      intro hcon
      injection hcon with h1 h2
      exact absurd h1 (by decide)
    · obtain ⟨frags, hres⟩ :=
        ask_ok_shape w2 _ (some s) t q hdoc hq (by simpa using hk)
      rw [hres]
      intro hcon
      exact EResp.noConfusion hcon
  · intro hk
    obtain ⟨frags, hres⟩ := ask_ok_shape w2 _ (some s) t q hdoc hq hk
    rw [hres]
    exact ⟨askCompletionRequest t q, frags, rfl, rfl⟩

/-- Claim C1 witness: summarize `a.pdf` under session `s1` (stores
"hello"), then ask under `s1`: not rejected as NoDocument, and the built
request's second message is the first 15,000 characters of "hello". -/
theorem claim1_witness :
    (cacheGet (summarize W_ok [] sqPdf).cache "s1" = some "hello") ∧
    (¬ ("what" = "" ∨ pyStrip "what" = "")) ∧
    ((ask W_ok (summarize W_ok [] sqPdf).cache
        ⟨some "s1", some ⟨some "what"⟩⟩).resp ≠
      EResp.error "No document found. Please upload a file first." 400) ∧
    (∃ req frags,
      (ask W_ok (summarize W_ok [] sqPdf).cache
          ⟨some "s1", some ⟨some "what"⟩⟩).resp = EResp.stream req frags ∧
      req.messages[1]? = some ⟨"user", pyTake 15000 "hello"⟩) :=
  ⟨by decide, by decide,
    (claim1_ask_sees_summarized_text W_ok W_ok [] sqPdf "s1" "hello" "what"
      (by decide) (by decide)).1 400,
    (claim1_ask_sees_summarized_text W_ok W_ok [] sqPdf "s1" "hello" "what"
      (by decide) (by decide)).2 rfl⟩

/-- Claim C5: both endpoints place the document text in the user message
as `pyTake 15000`, which truncates at exactly character 15,000: a text of
at most 15,000 characters is sent unchanged, a longer one is cut to its
first 15,000 characters. -/
theorem claim5_document_truncated_at_15000 (w : World) (c c2 : Cache)
    (sq : SummarizeRequest) (f : UploadedFile) (t : String)
    (hdr : Option String) (u q : String)
    (hf : sq.file = some f) (hn : ¬ f.filename = "")
    (hft : fileTypeOf f.filename ∈ allowed_types)
    (he : extract_text_from_file w.parsers (fileTypeOf f.filename) = Except.ok t)
    (hne : ¬ pyStrip t = "") (hk : keyMissing w.api_key = false)
    (hdoc : cacheGet c2 (hdr.getD "default") = some u)
    (hq : ¬ (q = "" ∨ pyStrip q = "")) :
    (∃ frags, (summarize w c sq).resp =
        EResp.stream (summarizeCompletionRequest t) frags) ∧
    (summarizeCompletionRequest t).messages[1]? =
      some ⟨"user", pyTake 15000 t⟩ ∧
    (∃ frags, (ask w c2 ⟨hdr, some ⟨some q⟩⟩).resp =
        EResp.stream (askCompletionRequest u q) frags) ∧
    (askCompletionRequest u q).messages[1]? =
      some ⟨"user", pyTake 15000 u⟩ ∧
    (∀ v : String, v.data.length ≤ 15000 → pyTake 15000 v = v) ∧
    (∀ v : String, (pyTake 15000 v).data = v.data.take 15000) ∧
    (∀ v : String, 15000 < v.data.length →
      (pyTake 15000 v).data.length = 15000 ∧
      ∃ rest, v.data = (pyTake 15000 v).data ++ rest) := by
  obtain ⟨hcache, hstream, heff⟩ :=
    summarize_ok_shape w c sq f t hf hn hft he hne hk
  obtain ⟨frags2, hres2⟩ := ask_ok_shape w c2 hdr u q hdoc hq hk
  refine ⟨hstream, rfl, ⟨frags2, ?_⟩, rfl, pyTake_of_le, pyTake_data, pyTake_long⟩
  rw [hres2]

/-- Claim C5 witness: the document message of both endpoints on the
fixture, plus the boundary facts for a 15,001-character text. -/
theorem claim5_witness :
    (sqPdf.file = some ⟨"a.pdf"⟩) ∧
    (extract_text_from_file W_ok.parsers
        (fileTypeOf (⟨"a.pdf"⟩ : UploadedFile).filename) = Except.ok "hello") ∧
    (cacheGet [("s1", "hello")] ((some "s1").getD "default") = some "hello") ∧
    ((∃ frags, (summarize W_ok [] sqPdf).resp =
        EResp.stream (summarizeCompletionRequest "hello") frags) ∧
      (summarizeCompletionRequest "hello").messages[1]? =
        some ⟨"user", pyTake 15000 "hello"⟩ ∧
      (∃ frags, (ask W_ok [("s1", "hello")] ⟨some "s1", some ⟨some "what"⟩⟩).resp =
          EResp.stream (askCompletionRequest "hello" "what") frags) ∧
      (askCompletionRequest "hello" "what").messages[1]? =
        some ⟨"user", pyTake 15000 "hello"⟩ ∧
      (∀ v : String, v.data.length ≤ 15000 → pyTake 15000 v = v) ∧
      (∀ v : String, (pyTake 15000 v).data = v.data.take 15000) ∧
      (∀ v : String, 15000 < v.data.length →
        (pyTake 15000 v).data.length = 15000 ∧
        ∃ rest, v.data = (pyTake 15000 v).data ++ rest)) :=
  ⟨rfl, rfl, rfl,
    claim5_document_truncated_at_15000 W_ok [] [("s1", "hello")] sqPdf
      ⟨"a.pdf"⟩ "hello" (some "s1") "hello" "what" rfl (by decide) (by decide)
      rfl (by decide) rfl rfl (by decide)⟩

/-- Claim C2 (evaluation at the failing inputs): the saved temp file is
removed only on the fully successful streaming path.  When extraction
raises, or the downstream completion call raises, the effects of the
summarize call contain the temp-file save but no removal; only when both
succeed does the removal appear. -/
theorem claim2_temp_file_not_removed_on_failure :
    (summarize W_bad [] sqPdf).effects =
      [Eff.tempSave "/tmp/a.pdf", Eff.extractCall "pdf"] ∧
    (summarize W_provErr [] sqPdf).effects =
      [Eff.tempSave "/tmp/a.pdf", Eff.extractCall "pdf", Eff.apiCall] ∧
    (summarize W_ok [] sqPdf).effects =
      [Eff.tempSave "/tmp/a.pdf", Eff.extractCall "pdf", Eff.apiCall,
       Eff.tempRemove "/tmp/a.pdf"] :=
  ⟨by decide, by decide, by decide⟩

/-- Claim C3 counterexample: a PDF upload whose parser raises "bad" gets
the wrapped message, but with HTTP status 500 — not the claimed 400. -/
theorem claim3_counterexample :
    (summarize W_bad [] sqPdf).resp =
      EResp.error "Failed to extract text from pdf: bad" 500 ∧
    ¬ ((summarize W_bad [] sqPdf).resp =
        EResp.error "Failed to extract text from pdf: bad" 400) :=
  ⟨by decide, by decide⟩

/-- Claim C3 (amended): a parser failure is re-signalled as
`Failed to extract text from {kind}: {message}` for each supported kind,
and the summarize endpoint returns exactly that wrapped message — with
HTTP status 500, not 400 — leaving the session store unchanged. -/
theorem claim3_parser_failure_wrapped_500 :
    (∀ o e, o.pdfPages = Except.error e →
      extract_text_from_file o "pdf" =
        Except.error ("Failed to extract text from pdf: " ++ e)) ∧
    (∀ o e, o.docxValue = Except.error e →
      extract_text_from_file o "docx" =
        Except.error ("Failed to extract text from docx: " ++ e)) ∧
    (∀ o e, o.pptxShapeTexts = Except.error e →
      extract_text_from_file o "pptx" =
        Except.error ("Failed to extract text from pptx: " ++ e)) ∧
    (∀ o e, o.xlsxSheetCsvs = Except.error e →
      extract_text_from_file o "xlsx" =
        Except.error ("Failed to extract text from xlsx: " ++ e)) ∧
    (∀ (w : World) (c : Cache) (sq : SummarizeRequest) (f : UploadedFile)
        (m : String),
      sq.file = some f → ¬ f.filename = "" →
      fileTypeOf f.filename ∈ allowed_types →
      extract_text_from_file w.parsers (fileTypeOf f.filename) =
        Except.error m →
      (summarize w c sq).resp = EResp.error m 500 ∧
        (summarize w c sq).cache = c) := by
  refine ⟨?_, ?_, ?_, ?_, ?_⟩
  · intro o e ho
    unfold extract_text_from_file
    rw [if_pos rfl, ho]
    rfl
  · intro o e ho
    unfold extract_text_from_file
    rw [if_neg (by decide), if_pos rfl, ho]
    rfl
  · intro o e ho
    unfold extract_text_from_file
    rw [if_neg (by decide), if_neg (by decide), if_pos rfl, ho]
    rfl
  · intro o e ho
    unfold extract_text_from_file
    rw [if_neg (by decide), if_neg (by decide), if_neg (by decide),
      if_pos rfl, ho]
    rfl
  · intro w c sq f m hf hn hft he
    rw [summarize_extract_error_shape w c sq f m hf hn hft he]
    exact ⟨rfl, rfl⟩

/-- Claim C3 witness: the PDF oracle failure "bad" is wrapped and the
endpoint returns it with status 500 and an unchanged store. -/
theorem claim3_witness :
    (O_bad.pdfPages = Except.error "bad") ∧
    (extract_text_from_file O_bad "pdf" =
      Except.error ("Failed to extract text from pdf: " ++ "bad")) ∧
    (extract_text_from_file W_bad.parsers
        (fileTypeOf (⟨"a.pdf"⟩ : UploadedFile).filename) =
      Except.error "Failed to extract text from pdf: bad") ∧
    ((summarize W_bad [] sqPdf).resp =
        EResp.error "Failed to extract text from pdf: bad" 500 ∧
      (summarize W_bad [] sqPdf).cache = []) :=
  ⟨rfl, claim3_parser_failure_wrapped_500.1 O_bad "bad" rfl, rfl,
    claim3_parser_failure_wrapped_500.2.2.2.2 W_bad [] sqPdf ⟨"a.pdf"⟩
      "Failed to extract text from pdf: bad" rfl (by decide) (by decide) rfl⟩

/-- Claim C8 counterexample: with the credential absent, an `ask` for a
fresh session is rejected with the 400 NoDocumentError message, not the
claimed 500 configuration error, so not every call made without the
credential returns the 500 ConfigurationError. -/
theorem claim8_counterexample :
    keyMissing W_nokey.api_key = true ∧
    (ask W_nokey [] aqFresh).resp =
      EResp.error "No document found. Please upload a file first." 400 ∧
    ¬ ((ask W_nokey [] aqFresh).resp =
        EResp.error "Server configuration error: Missing API key" 500) :=
  ⟨rfl, by decide, by decide⟩

/-- Claim C8 (amended): for calls that pass the endpoint's earlier
request-validation steps (for summarize: file present, non-empty name,
supported type, successful non-empty extraction; for ask: stored document,
JSON body with a non-empty query), a missing credential yields the 500
configuration error and no network-call effect. -/
theorem claim8_config_error_without_network :
    (∀ (w : World) (c : Cache) (sq : SummarizeRequest) (f : UploadedFile)
        (t : String),
      sq.file = some f → ¬ f.filename = "" →
      fileTypeOf f.filename ∈ allowed_types →
      extract_text_from_file w.parsers (fileTypeOf f.filename) =
        Except.ok t →
      ¬ pyStrip t = "" → keyMissing w.api_key = true →
      (summarize w c sq).resp =
          EResp.error "Server configuration error: Missing API key" 500 ∧
        Eff.apiCall ∉ (summarize w c sq).effects) ∧
    (∀ (w : World) (c : Cache) (hdr : Option String) (u q : String),
      cacheGet c (hdr.getD "default") = some u →
      ¬ (q = "" ∨ pyStrip q = "") → keyMissing w.api_key = true →
      (ask w c ⟨hdr, some ⟨some q⟩⟩).resp =
          EResp.error "Server configuration error: Missing API key" 500 ∧
        Eff.apiCall ∉ (ask w c ⟨hdr, some ⟨some q⟩⟩).effects) := by
  constructor
  · intro w c sq f t hf hn hft he hne hk
    rw [summarize_nokey_shape w c sq f t hf hn hft he hne hk]
    exact ⟨rfl, by simp⟩
  · intro w c hdr u q hdoc hq hk
    rw [ask_nokey_shape w c hdr u q hdoc hq hk]
    exact ⟨rfl, by simp⟩

/-- Claim C8 witness: with no credential, a validated summarize of `a.pdf`
and a validated ask on a stored document both return the 500 configuration
error with no network-call effect. -/
theorem claim8_witness :
    (sqPdf.file = some ⟨"a.pdf"⟩) ∧
    (extract_text_from_file W_nokey.parsers
        (fileTypeOf (⟨"a.pdf"⟩ : UploadedFile).filename) = Except.ok "hello") ∧
    (keyMissing W_nokey.api_key = true) ∧
    (cacheGet [("s1", "hello")] ((some "s1").getD "default") = some "hello") ∧
    ((summarize W_nokey [] sqPdf).resp =
        EResp.error "Server configuration error: Missing API key" 500 ∧
      Eff.apiCall ∉ (summarize W_nokey [] sqPdf).effects) ∧
    ((ask W_nokey [("s1", "hello")] ⟨some "s1", some ⟨some "what"⟩⟩).resp =
        EResp.error "Server configuration error: Missing API key" 500 ∧
      Eff.apiCall ∉
        (ask W_nokey [("s1", "hello")] ⟨some "s1", some ⟨some "what"⟩⟩).effects) :=
  ⟨rfl, rfl, rfl, rfl,
    claim8_config_error_without_network.1 W_nokey [] sqPdf ⟨"a.pdf"⟩ "hello"
      rfl (by decide) (by decide) rfl (by decide) rfl,
    claim8_config_error_without_network.2 W_nokey [("s1", "hello")]
      (some "s1") "hello" "what" rfl (by decide) rfl⟩

end App
